import Mathlib

/-!
Verification of the `lib_openpose_detector.py` wrapper.

The file shallowly embeds the wrapper's own logic:
  * the parameter dictionary built by `OpenposeDetector._set_openpose_params`
    (defaults plus command-line override merging),
  * the batch driver `test_openpose_on_images` as an effect trace,
  * the persister `save_joints_positions` together with a model of the
    `.npy` binary serialization it delegates to,
  * `OpenposeDetector.detect` with `is_return_joints=True`, including the
    discarded `np.swapaxes` call.

Machine strings are Lean `String`; the Python dict is embedded as an
insertion-ordered association list with unique keys (insertions in the
source are always guarded by `key not in params`).
-/

set_option autoImplicit false

/-- A value stored in the openpose parameter dict: the defaults use Python
booleans (`face`, `hand`), command-line overrides always store strings. -/
inductive PValue where
  | bool (b : Bool)
  | str (s : String)
  deriving DecidableEq, Repr

/-- The parameter dictionary, as an insertion-ordered association list. -/
abbrev Params := List (String × PValue)

/-- Python `key in params` on the dict. -/
def pcontains : Params → String → Bool
  | [], _ => false
  | (k', _) :: rest, k => k' == k || pcontains rest k

/-- Python `params[key]` read (first binding; keys are unique in the source
because every write is guarded by `key not in params`). -/
def plookup : Params → String → Option PValue
  | [], _ => none
  | (k', v) :: rest, k => if k' == k then some v else plookup rest k

/-- Python `params[key] = v` for a key that is not yet present: dicts append
new keys in insertion order. -/
def pset (params : Params) (k : String) (v : PValue) : Params :=
  params ++ [(k, v)]

/-- `listStarts pat l` holds when `pat` is an initial segment of `l`. -/
def listStarts : List Char → List Char → Bool
  | [], _ => true
  | _ :: _, [] => false
  | p :: ps, c :: cs => p == c && listStarts ps cs

/-- `listHasSub pat l`: `pat` occurs contiguously somewhere inside `l`. -/
def listHasSub (pat : List Char) : List Char → Bool
  | [] => pat.isEmpty
  | c :: rest => listStarts pat (c :: rest) || listHasSub pat rest

/-- Python `pat in s` (substring containment), as used by
`"--" in curr_item` in `_set_openpose_params`. -/
def strIn (pat s : String) : Bool :=
  listHasSub pat.toList s.toList

/-- Python `s.startswith(pat)`; the §4.1 spec text reads "begins with a
recognized flag marker". -/
def strStarts (pat s : String) : Bool :=
  listStarts pat.toList s.toList

/-- Python `curr_item.replace('-', '')`: delete every dash. -/
def removeDashes (s : String) : String :=
  String.mk (s.toList.filter (fun c => !(c == '-')))

/-- `OPENPOSE_HOME = os.environ['OPENPOSE_HOME'] + "/"`, with the raw
environment value as a parameter. -/
def OPENPOSE_HOME (envHome : String) : String := envHome ++ "/"

/-- `MODEL_PATH = OPENPOSE_HOME + "models/"`. -/
def MODEL_PATH (envHome : String) : String := OPENPOSE_HOME envHome ++ "models/"

/-- The five default entries written at the top of `_set_openpose_params`,
in insertion order. -/
def openposeDefaults (envHome : String) : Params :=
  [("model_folder", .str (MODEL_PATH envHome)),
   ("face", .bool false),
   ("hand", .bool true),
   ("net_resolution", .str "320x240"),
   ("model_pose", .str "COCO")]

/-- One iteration of the override loop in `_set_openpose_params`
(lines 99-111): `curr_item` is the token at index `i`, `next_item` the token
at index `i+1`, or `"1"` when `i` is the last index. -/
def mergeStep (params : Params) (curr_item next_item : String) : Params :=
  if strIn "--" curr_item && strIn "--" next_item then
    let key := removeDashes curr_item
    if pcontains params key then params else pset params key (.str "1")
  else if strIn "--" curr_item && !(strIn "--" next_item) then
    let key := removeDashes curr_item
    if pcontains params key then params else pset params key (.str next_item)
  else params

/-- The whole `for i in range(0, len(args[1]))` loop: every index is
visited; the last token's `next_item` is the literal `"1"`. -/
def mergeArgsLoop (params : Params) : List String → Params
  | [] => params
  | [curr] => mergeStep params curr "1"
  | curr :: next :: rest => mergeArgsLoop (mergeStep params curr next) (next :: rest)

/-- `OpenposeDetector._set_openpose_params(command_line_args=[])`:
`none` is the default empty (falsy) argument, which skips the merge loop;
`some leftover` is a parsed-args pair whose `args[1]` is `leftover`. -/
def set_openpose_params (envHome : String) : Option (List String) → Params
  | none => openposeDefaults envHome
  | some leftover => mergeArgsLoop (openposeDefaults envHome) leftover

/-- The state of the merge loop just before the token `nxt` is processed,
after processing the tokens of `pre` (the element following the last token
of `pre` is `nxt`). -/
def mergeUpTo (params : Params) : List String → String → Params
  | [], _ => params
  | [a], nxt => mergeStep params a nxt
  | a :: b :: rest, nxt => mergeUpTo (mergeStep params a b) (b :: rest) nxt

/-- Each override token paired with its successor; the last token is paired
with the literal `"1"` (the loop's `next_item` convention). -/
def flagPairs (toks : List String) : List (String × String) :=
  toks.zip (toks.drop 1 ++ ["1"])

/-- Modelled from the spec: the §4.1 merge algorithm read with "the token
begins with a recognized flag marker" taken literally (`startswith "--"`),
first-writer-wins, consecutive flags giving the boolean value `"1"`. -/
def specMergeBeginsWith (envHome : String) (toks : List String) : Params :=
  (flagPairs toks).foldl
    (fun params pr =>
      if strStarts "--" pr.1 then
        let key := removeDashes pr.1
        if pcontains params key then params
        else if strStarts "--" pr.2 then pset params key (.str "1")
        else pset params key (.str pr.2)
      else params)
    (openposeDefaults envHome)

/-- One token of the §4.1 merge with the flag-marker test amended to
substring containment (what the source's `"--" in curr_item` computes). -/
def specStepContains (params : Params) (pr : String × String) : Params :=
  if strIn "--" pr.1 then
    let key := removeDashes pr.1
    if pcontains params key then params
    else if strIn "--" pr.2 then pset params key (.str "1")
    else pset params key (.str pr.2)
  else params

/-- The §4.1 merge algorithm with the flag-marker test amended to substring
containment, as a fold over token/successor pairs. -/
def specMergeContains (envHome : String) (toks : List String) : Params :=
  (flagPairs toks).foldl specStepContains (openposeDefaults envHome)

/-!  Arrays, the persister, and `detect`.  -/

/-- A numpy array: its shape and its flat row-major element buffer.
Elements are raw machine words (the float32 bit patterns); the wrapper
never computes with them, only stores and copies them. -/
structure NDArray where
  shape : List Nat
  data : List Nat
  deriving DecidableEq, Repr

/-- The detection result consumed by the persister and by
`detect(..., is_return_joints=True)`: `poseKeypoints` as an array of shape
`[P, N, 3]`, and `np.array(datum.handKeypoints)`, the two per-hand arrays
stacked with the hand axis first, shape `[2, P, M, 3]`. -/
structure Datum where
  poseKeypoints : NDArray
  handKeypoints : NDArray
  deriving DecidableEq, Repr

/-- Modelled from the spec: `np.save` (an external numpy routine invoked by
`save_joints_positions`, not code of this repository) writes the array's
shape metadata followed by the raw elements, "no compression, no schema
header beyond the serialization format's own array-shape metadata". -/
def npSave (a : NDArray) : List Nat :=
  a.shape.length :: (a.shape ++ a.data)

/-- Modelled from the spec: `np.load`, the array-loading routine matching
`npSave`: read the shape header back, then the elements; fail on a
malformed file. -/
def npLoad (file : List Nat) : Option NDArray :=
  match file with
  | [] => none
  | k :: rest =>
      let shape := rest.take k
      let payload := rest.drop k
      if shape.length = k ∧ payload.length = shape.prod then
        some ⟨shape, payload⟩
      else none

/-- `OpenposeDetector.save_joints_positions`: two independent binary writes,
`np.save(pose_filename, np.array(datum.poseKeypoints))` then
`np.save(hand_filename, np.array(datum.handKeypoints))`; returned as the
two file contents (pose file, hand file). -/
def save_joints_positions (datum : Datum) : List Nat × List Nat :=
  (npSave datum.poseKeypoints, npSave datum.handKeypoints)

/-- `np.swapaxes(a, 0, 1)`: a new array with the first two axes exchanged;
the element at multi-index `(i1, i0, r)` of the result is the element at
`(i0, i1, r)` of `a`. Pure: `a` itself is not modified. -/
def swapaxes01 (a : NDArray) : NDArray :=
  match a.shape with
  | s0 :: s1 :: rest =>
      let b := rest.prod
      ⟨s1 :: s0 :: rest,
       (List.range s1).flatMap (fun i1 =>
         (List.range s0).flatMap (fun i0 =>
           (a.data.drop ((i0 * s1 + i1) * b)).take b))⟩
  | _ => a

/-- `OpenposeDetector.detect` with `is_return_joints=True` (lines 60-64),
applied to the datum the engine filled in: `body_joints` and `hand_joints`
are the two arrays; the `np.swapaxes(hand_joints, 0, 1)` result is bound to
nothing and discarded, exactly as in the source. -/
def detect (datum : Datum) : NDArray × NDArray :=
  let body_joints := datum.poseKeypoints
  let hand_joints := datum.handKeypoints
  let _ := swapaxes01 hand_joints
  (body_joints, hand_joints)

/-!  The batch driver `test_openpose_on_images` as an effect trace.  -/

/-- `"{:05d}".format(i)`: decimal digits left-padded with zeros to width 5. -/
def pad5 (n : Nat) : String :=
  let s := Nat.repr n
  String.mk (List.replicate (5 - s.length) '0') ++ s

/-- `DST_FOLDER = ROOT + "output/"`, with `ROOT` as a parameter. -/
def DST_FOLDER (root : String) : String := root ++ "output/"

/-- The externally visible actions of one run of the batch driver. -/
inductive Effect where
  | makeDir (folder : String)
  | readImage (path : String)
  | detectCall (path : String)
  | fileWrite (name : String)
  | showFrame
  deriving DecidableEq, Repr

/-- The body of one loop iteration of `test_openpose_on_images` for index
`i` and image path `path`: read, detect, write the three outputs
(`s = DST_FOLDER + "{:05d}".format(i) + "_"`), display. -/
def iterEffects (root : String) (i : Nat) (path : String) : List Effect :=
  [.readImage path,
   .detectCall path,
   .fileWrite (DST_FOLDER root ++ pad5 i ++ "_" ++ "body_joints.npy"),
   .fileWrite (DST_FOLDER root ++ pad5 i ++ "_" ++ "hand_joints.npy"),
   .fileWrite (DST_FOLDER root ++ pad5 i ++ "_" ++ "result.jpg"),
   .showFrame]

/-- The `for i, imagePath in enumerate(imagePaths)` loop: `keys i` is what
`cv2.waitKey(15)` returns on iteration `i`; the loop breaks after the
iteration whose key is 27 (ESC), the break coming after that iteration's
writes. -/
def batchLoop (root : String) (keys : Nat → Int) : Nat → List String → List Effect
  | _, [] => []
  | i, p :: rest =>
      iterEffects root i p ++
        (if keys i = 27 then [] else batchLoop root keys (i + 1) rest)

/-- `test_openpose_on_images`: create the output directory, enumerate the
input directory (`imagePaths` is the enumeration result), and run the loop
from index 0. -/
def test_openpose_on_images (root : String) (keys : Nat → Int)
    (imagePaths : List String) : List Effect :=
  Effect.makeDir (DST_FOLDER root) :: batchLoop root keys 0 imagePaths

/-- Number of detector invocations in a trace. -/
def countDetects (tr : List Effect) : Nat :=
  (tr.filter (fun e => match e with | .detectCall _ => true | _ => false)).length

/-- Number of output files written in a trace. -/
def countFileWrites (tr : List Effect) : Nat :=
  (tr.filter (fun e => match e with | .fileWrite _ => true | _ => false)).length

/-- The parameters the detector session of the batch driver is configured
with: line 141 constructs `OpenposeDetector()` with no arguments, so
`_set_openpose_params` runs with its default empty `command_line_args` and
the leftover tokens collected by `parse_known_args` never reach it. -/
def driverConfiguredParams (envHome : String) (leftoverTokens : List String) : Params :=
  set_openpose_params envHome none

/-!  Helper lemmas about the merge loop.  -/

theorem mergeStep_append (params : Params) (c n : String) :
    ∃ t, mergeStep params c n = params ++ t := by
  cases h1 : strIn "--" c <;> cases h2 : strIn "--" n <;>
    cases h3 : pcontains params (removeDashes c) <;>
      simp [mergeStep, pset, h1, h2, h3]

theorem mergeArgsLoop_append (l : List String) :
    ∀ params : Params, ∃ t, mergeArgsLoop params l = params ++ t := by
  induction l with
  | nil => intro params; exact ⟨[], by simp [mergeArgsLoop]⟩
  | cons c tail ih =>
    intro params
    cases tail with
    | nil =>
        obtain ⟨t, ht⟩ := mergeStep_append params c "1"
        exact ⟨t, ht⟩
    | cons nx rest =>
        obtain ⟨t0, ht0⟩ := mergeStep_append params c nx
        obtain ⟨t1, ht1⟩ := ih (mergeStep params c nx)
        refine ⟨t0 ++ t1, ?_⟩
        show mergeArgsLoop (mergeStep params c nx) (nx :: rest) = params ++ (t0 ++ t1)
        rw [ht1, ht0, List.append_assoc]

theorem mergeArgsLoop_split (pre : List String) :
    ∀ (params : Params) (c : String) (l : List String),
      mergeArgsLoop params (pre ++ c :: l) = mergeArgsLoop (mergeUpTo params pre c) (c :: l) := by
  induction pre with
  | nil => intro params c l; rfl
  | cons a tail ih =>
    intro params c l
    cases tail with
    | nil => rfl
    | cons b rest =>
        calc mergeArgsLoop params ((a :: b :: rest) ++ c :: l)
            = mergeArgsLoop (mergeStep params a b) ((b :: rest) ++ c :: l) := rfl
          _ = mergeArgsLoop (mergeUpTo (mergeStep params a b) (b :: rest) c) (c :: l) :=
              ih _ _ _
          _ = mergeArgsLoop (mergeUpTo params (a :: b :: rest) c) (c :: l) := rfl

theorem pcontains_append (xs ys : Params) (k : String) :
    pcontains (xs ++ ys) k = (pcontains xs k || pcontains ys k) := by
  induction xs with
  | nil => simp [pcontains]
  | cons kv rest ih =>
      obtain ⟨k', v⟩ := kv
      simp [pcontains, ih, Bool.or_assoc]

theorem plookup_append_left (xs ys : Params) (k : String) :
    pcontains xs k = true → plookup (xs ++ ys) k = plookup xs k := by
  induction xs with
  | nil => intro h; simp [pcontains] at h
  | cons kv rest ih =>
      intro h
      obtain ⟨k', v⟩ := kv
      cases hk : (k' == k) with
      | true => simp [plookup, hk]
      | false =>
          have h' : pcontains rest k = true := by simpa [pcontains, hk] using h
          simpa [plookup, hk] using ih h'

theorem plookup_append_right (xs ys : Params) (k : String) :
    pcontains xs k = false → plookup (xs ++ ys) k = plookup ys k := by
  induction xs with
  | nil => intro _; rfl
  | cons kv rest ih =>
      intro h
      obtain ⟨k', v⟩ := kv
      cases hk : (k' == k) with
      | true => simp [pcontains, hk] at h
      | false =>
          have h' : pcontains rest k = false := by simpa [pcontains, hk] using h
          simpa [plookup, hk] using ih h'

theorem plookup_inserted (params t : Params) (k : String) (v : PValue)
    (h : pcontains params k = false) :
    plookup ((params ++ [(k, v)]) ++ t) k = some v := by
  rw [plookup_append_left]
  · rw [plookup_append_right _ _ _ h]
    simp [plookup]
  · rw [pcontains_append]
    simp [pcontains, h]

theorem plookup_mergeArgsLoop (params : Params) (l : List String) (k : String)
    (h : pcontains params k = true) :
    plookup (mergeArgsLoop params l) k = plookup params k := by
  obtain ⟨t, ht⟩ := mergeArgsLoop_append l params
  rw [ht, plookup_append_left _ _ _ h]

theorem mergeStep_eq_specStep (params : Params) (c n : String) :
    mergeStep params c n = specStepContains params (c, n) := by
  unfold mergeStep specStepContains
  cases h1 : strIn "--" c <;> cases h2 : strIn "--" n <;> simp [h1, h2]

theorem flagPairs_cons_cons (c n : String) (rest : List String) :
    flagPairs (c :: n :: rest) = (c, n) :: flagPairs (n :: rest) := by
  simp [flagPairs]

theorem mergeArgsLoop_eq_foldl (toks : List String) : ∀ params : Params,
    mergeArgsLoop params toks = (flagPairs toks).foldl specStepContains params := by
  induction toks with
  | nil => intro params; rfl
  | cons c tail ih =>
      intro params
      cases tail with
      | nil =>
          show mergeStep params c "1" = _
          rw [mergeStep_eq_specStep]
          rfl
      | cons n rest =>
          rw [flagPairs_cons_cons, List.foldl_cons, ← mergeStep_eq_specStep]
          exact ih (mergeStep params c n)

theorem listStarts_listHasSub (pat l : List Char) (h : listStarts pat l = true) :
    listHasSub pat l = true := by
  cases l with
  | nil =>
      cases pat with
      | nil => rfl
      | cons p ps => simp [listStarts] at h
  | cons c rest => simp [listHasSub, h]

theorem strStarts_strIn {pat s : String} (h : strStarts pat s = true) : strIn pat s = true :=
  listStarts_listHasSub _ _ h

theorem mergeStep_insert_bool (params : Params) (c n : String)
    (h1 : strIn "--" c = true) (h2 : strIn "--" n = true)
    (h3 : pcontains params (removeDashes c) = false) :
    mergeStep params c n = params ++ [(removeDashes c, PValue.str "1")] := by
  simp [mergeStep, h1, h2, h3, pset]

theorem mergeStep_insert_value (params : Params) (c n : String)
    (h1 : strIn "--" c = true) (h2 : strIn "--" n = false)
    (h3 : pcontains params (removeDashes c) = false) :
    mergeStep params c n = params ++ [(removeDashes c, PValue.str n)] := by
  simp [mergeStep, h1, h2, h3, pset]

theorem npLoad_npSave (a : NDArray) (h : a.data.length = a.shape.prod) :
    npLoad (npSave a) = some a := by
  obtain ⟨shape, data⟩ := a
  simp only [npSave, npLoad, List.take_left, List.drop_left]
  simp_all

/-!  Claim theorems.  -/

/-- C1 counterexample: at a concrete invocation whose leftover tokens are
`["--myflag", "5"]`, the parameter dictionary the detector session is
configured with is not the §4.1 merge of the defaults plus those tokens:
the merge would add the key `myflag`, but the driver constructs
`OpenposeDetector()` without arguments, so the tokens are dropped. -/
theorem c1_counterexample :
    driverConfiguredParams "H" ["--myflag", "5"] ≠
      set_openpose_params "H" (some ["--myflag", "5"]) := by
  decide

/-- C1 (amended): the batch driver does not forward the leftover
command-line tokens at all; for every invocation the detector session is
configured with exactly the built-in defaults, whatever the leftover
tokens are. -/
theorem c1_driver_ignores_overrides (envHome : String) (leftoverTokens : List String) :
    driverConfiguredParams envHome leftoverTokens = openposeDefaults envHome := rfl

/-- C2: a key already present in the defaults keeps its default value in
the configuration produced by the Parameter Builder, for every override
list (first-writer-wins). -/
theorem c2_defaults_first_writer_wins (envHome : String) (toks : List String) (k : String)
    (h : pcontains (openposeDefaults envHome) k = true) :
    plookup (set_openpose_params envHome (some toks)) k
      = plookup (openposeDefaults envHome) k :=
  plookup_mergeArgsLoop _ _ _ h

/-- C2 witness: for the override list `["--face", "--net_resolution",
"160x160"]` the `face` key keeps its default value `False`. -/
theorem c2_witness :
    pcontains (openposeDefaults "H") "face" = true ∧
    plookup (set_openpose_params "H" (some ["--face", "--net_resolution", "160x160"])) "face"
      = plookup (openposeDefaults "H") "face" ∧
    plookup (openposeDefaults "H") "face" = some (PValue.bool false) :=
  ⟨by decide,
   c2_defaults_first_writer_wins "H" ["--face", "--net_resolution", "160x160"] "face"
     (by decide),
   by decide⟩

/-- C3 counterexample: the token `"x--y"` does not begin with the flag
marker `"--"`, yet the Parameter Builder treats it as a flag: the merged
configuration binds the key `xy` to the following token, and differs from
the result of the spec's begins-with reading of §4.1. -/
theorem c3_counterexample :
    strStarts "--" "x--y" = false ∧
    plookup (set_openpose_params "H" (some ["x--y", "val"])) "xy" = some (PValue.str "val") ∧
    set_openpose_params "H" (some ["x--y", "val"]) ≠ specMergeBeginsWith "H" ["x--y", "val"] := by
  refine ⟨by decide, by decide, by decide⟩

/-- C3 (amended): a token is treated as a flag marker exactly when it
contains `"--"` anywhere (not only when it begins with it); with that one
change, the code's merge loop coincides with the §4.1 algorithm (each
token paired with its successor, last token paired with `"1"`,
first-writer-wins, a flag whose successor is not a flag taking the
successor as value) on every input. -/
theorem c3_flag_marker_is_containment (envHome : String) (toks : List String) :
    set_openpose_params envHome (some toks) = specMergeContains envHome toks :=
  mergeArgsLoop_eq_foldl toks (openposeDefaults envHome)

/-- C4 counterexample: for the override list `["--hand"]` (the spec's own
example of a trailing flag), the resulting value of the `hand` key is the
default boolean `True`, not the literal string `"1"`: first-writer-wins
blocks the assignment because `hand` is a default key. -/
theorem c4_counterexample :
    plookup (set_openpose_params "H" (some ["--hand"])) "hand" = some (PValue.bool true) ∧
    some (PValue.bool true) ≠ some (PValue.str "1") := by
  refine ⟨by decide, by decide⟩

/-- C4 (amended): for every override list whose last token is a flag
marker with no following token, the Parameter Builder assigns that key the
literal string `"1"` (and does not fail), provided the key is not already
present in the configuration built so far; a key already present keeps its
existing value. -/
theorem c4_trailing_flag_gets_one (envHome : String) (pre : List String) (lastTok : String)
    (h1 : strStarts "--" lastTok = true)
    (h2 : pcontains (mergeUpTo (openposeDefaults envHome) pre lastTok)
            (removeDashes lastTok) = false) :
    plookup (set_openpose_params envHome (some (pre ++ [lastTok]))) (removeDashes lastTok)
      = some (PValue.str "1") := by
  have hin : strIn "--" lastTok = true := strStarts_strIn h1
  show plookup (mergeArgsLoop (openposeDefaults envHome) (pre ++ [lastTok])) _ = _
  rw [mergeArgsLoop_split]
  show plookup (mergeStep (mergeUpTo (openposeDefaults envHome) pre lastTok) lastTok "1") _ = _
  rw [mergeStep_insert_value _ _ _ hin (by decide) h2]
  rw [plookup_append_right _ _ _ h2]
  simp [plookup]

/-- C4 amended witness: the trailing flag `"--myflag"` (key absent from
the defaults) receives the literal string `"1"`. -/
theorem c4_witness :
    strStarts "--" "--myflag" = true ∧
    pcontains (mergeUpTo (openposeDefaults "H") [] "--myflag") (removeDashes "--myflag") = false ∧
    plookup (set_openpose_params "H" (some ([] ++ ["--myflag"]))) (removeDashes "--myflag")
      = some (PValue.str "1") :=
  ⟨by decide, by decide, c4_trailing_flag_gets_one "H" [] "--myflag" (by decide) (by decide)⟩

/-- C5: when two flag-marker tokens appear consecutively in the override
list, the first receives the boolean value `"1"` in the final
configuration, provided its key is not already present in the
configuration at the moment it is processed. -/
theorem c5_consecutive_flags_give_one (envHome : String) (pre : List String)
    (curr nxt : String) (rest : List String)
    (h1 : strStarts "--" curr = true) (h2 : strStarts "--" nxt = true)
    (h3 : pcontains (mergeUpTo (openposeDefaults envHome) pre curr)
            (removeDashes curr) = false) :
    plookup (set_openpose_params envHome (some (pre ++ curr :: nxt :: rest)))
        (removeDashes curr)
      = some (PValue.str "1") := by
  have hc : strIn "--" curr = true := strStarts_strIn h1
  have hn : strIn "--" nxt = true := strStarts_strIn h2
  show plookup (mergeArgsLoop (openposeDefaults envHome) (pre ++ curr :: nxt :: rest)) _ = _
  rw [mergeArgsLoop_split]
  show plookup
      (mergeArgsLoop (mergeStep (mergeUpTo (openposeDefaults envHome) pre curr) curr nxt)
        (nxt :: rest)) _ = _
  rw [mergeStep_insert_bool _ _ _ hc hn h3]
  obtain ⟨t, ht⟩ := mergeArgsLoop_append (nxt :: rest)
    (mergeUpTo (openposeDefaults envHome) pre curr ++ [(removeDashes curr, PValue.str "1")])
  rw [ht]
  exact plookup_inserted _ t _ _ h3

/-- C5 witness: in `["--x", "--y"]` the consecutive flags give `x` the
value `"1"`. -/
theorem c5_witness :
    strStarts "--" "--x" = true ∧
    strStarts "--" "--y" = true ∧
    pcontains (mergeUpTo (openposeDefaults "H") [] "--x") (removeDashes "--x") = false ∧
    plookup (set_openpose_params "H" (some ([] ++ "--x" :: "--y" :: []))) (removeDashes "--x")
      = some (PValue.str "1") :=
  ⟨by decide, by decide, by decide,
   c5_consecutive_flags_give_one "H" [] "--x" "--y" [] (by decide) (by decide) (by decide)⟩

/-- C6: for every override list the configuration contains the keys
`model_folder`, `hand`, `net_resolution` and `model_pose`, each holding
its default value (the model directory path, the hand-detection enable
flag `True`, the resolution string `"320x240"`, the pose model `"COCO"`). -/
theorem c6_required_defaults (envHome : String) (toks : List String) :
    plookup (set_openpose_params envHome (some toks)) "model_folder"
        = some (PValue.str (MODEL_PATH envHome)) ∧
    plookup (set_openpose_params envHome (some toks)) "hand" = some (PValue.bool true) ∧
    plookup (set_openpose_params envHome (some toks)) "net_resolution"
        = some (PValue.str "320x240") ∧
    plookup (set_openpose_params envHome (some toks)) "model_pose"
        = some (PValue.str "COCO") := by
  refine ⟨?_, ?_, ?_, ?_⟩
  · exact (plookup_mergeArgsLoop (openposeDefaults envHome) toks "model_folder" rfl).trans rfl
  · exact (plookup_mergeArgsLoop (openposeDefaults envHome) toks "hand" rfl).trans rfl
  · exact (plookup_mergeArgsLoop (openposeDefaults envHome) toks "net_resolution" rfl).trans rfl
  · exact (plookup_mergeArgsLoop (openposeDefaults envHome) toks "model_pose" rfl).trans rfl

/-- C7: when the enumeration yields exactly 3 images and no iteration
returns the quit key (27), the batch driver performs exactly 3 detection
calls and writes exactly 3 files per image (body keypoints, hand
keypoints, annotated image), the three files of image `i` sharing the
zero-padded prefix `"00000"`, `"00001"`, `"00002"` respectively. -/
theorem c7_three_images_full_trace (root p0 p1 p2 : String) (keys : Nat → Int)
    (h : ∀ i, keys i ≠ 27) :
    test_openpose_on_images root keys [p0, p1, p2] =
      [Effect.makeDir (DST_FOLDER root),
       Effect.readImage p0, Effect.detectCall p0,
       Effect.fileWrite (DST_FOLDER root ++ "00000" ++ "_" ++ "body_joints.npy"),
       Effect.fileWrite (DST_FOLDER root ++ "00000" ++ "_" ++ "hand_joints.npy"),
       Effect.fileWrite (DST_FOLDER root ++ "00000" ++ "_" ++ "result.jpg"),
       Effect.showFrame,
       Effect.readImage p1, Effect.detectCall p1,
       Effect.fileWrite (DST_FOLDER root ++ "00001" ++ "_" ++ "body_joints.npy"),
       Effect.fileWrite (DST_FOLDER root ++ "00001" ++ "_" ++ "hand_joints.npy"),
       Effect.fileWrite (DST_FOLDER root ++ "00001" ++ "_" ++ "result.jpg"),
       Effect.showFrame,
       Effect.readImage p2, Effect.detectCall p2,
       Effect.fileWrite (DST_FOLDER root ++ "00002" ++ "_" ++ "body_joints.npy"),
       Effect.fileWrite (DST_FOLDER root ++ "00002" ++ "_" ++ "hand_joints.npy"),
       Effect.fileWrite (DST_FOLDER root ++ "00002" ++ "_" ++ "result.jpg"),
       Effect.showFrame] ∧
    countDetects (test_openpose_on_images root keys [p0, p1, p2]) = 3 ∧
    countFileWrites (test_openpose_on_images root keys [p0, p1, p2]) = 9 := by
  have h0 : ¬keys 0 = 27 := h 0
  have h1 : ¬keys 1 = 27 := h 1
  have h2 : ¬keys 2 = 27 := h 2
  have e : batchLoop root keys 0 [p0, p1, p2]
      = iterEffects root 0 p0 ++ (iterEffects root 1 p1 ++ (iterEffects root 2 p2 ++ [])) := by
    simp only [batchLoop, if_neg h0, if_neg h1, if_neg h2]
  refine ⟨?_, ?_, ?_⟩
  · show Effect.makeDir (DST_FOLDER root) :: batchLoop root keys 0 [p0, p1, p2] = _
    rw [e]
    rfl
  · show countDetects (Effect.makeDir (DST_FOLDER root) :: batchLoop root keys 0 [p0, p1, p2]) = 3
    rw [e]
    rfl
  · show countFileWrites (Effect.makeDir (DST_FOLDER root) :: batchLoop root keys 0 [p0, p1, p2]) = 9
    rw [e]
    rfl

/-- C7 witness: a concrete 3-image run with no quit key pressed. -/
theorem c7_witness :
    (∀ i : Nat, (fun _ : Nat => (0 : Int)) i ≠ 27) ∧
    (test_openpose_on_images "R/" (fun _ => (0 : Int)) ["a.jpg", "b.jpg", "c.jpg"] =
        [Effect.makeDir "R/output/",
         Effect.readImage "a.jpg", Effect.detectCall "a.jpg",
         Effect.fileWrite "R/output/00000_body_joints.npy",
         Effect.fileWrite "R/output/00000_hand_joints.npy",
         Effect.fileWrite "R/output/00000_result.jpg",
         Effect.showFrame,
         Effect.readImage "b.jpg", Effect.detectCall "b.jpg",
         Effect.fileWrite "R/output/00001_body_joints.npy",
         Effect.fileWrite "R/output/00001_hand_joints.npy",
         Effect.fileWrite "R/output/00001_result.jpg",
         Effect.showFrame,
         Effect.readImage "c.jpg", Effect.detectCall "c.jpg",
         Effect.fileWrite "R/output/00002_body_joints.npy",
         Effect.fileWrite "R/output/00002_hand_joints.npy",
         Effect.fileWrite "R/output/00002_result.jpg",
         Effect.showFrame] ∧
      countDetects (test_openpose_on_images "R/" (fun _ => (0 : Int))
          ["a.jpg", "b.jpg", "c.jpg"]) = 3 ∧
      countFileWrites (test_openpose_on_images "R/" (fun _ => (0 : Int))
          ["a.jpg", "b.jpg", "c.jpg"]) = 9) :=
  ⟨fun _ => by show (0 : Int) ≠ 27; decide,
   c7_three_images_full_trace "R/" "a.jpg" "b.jpg" "c.jpg" (fun _ => 0)
     (fun _ => by show (0 : Int) ≠ 27; decide)⟩

/-- C8: an empty enumeration produces zero loop iterations: no detection
call, no output file, and the driver terminates normally (the trace is
just the output-directory creation). -/
theorem c8_empty_directory (root : String) (keys : Nat → Int) :
    test_openpose_on_images root keys [] = [Effect.makeDir (DST_FOLDER root)] ∧
    countDetects (test_openpose_on_images root keys []) = 0 ∧
    countFileWrites (test_openpose_on_images root keys []) = 0 :=
  ⟨rfl, rfl, rfl⟩

/-- C9: for every body or hand keypoint array (any array whose flat buffer
length matches its shape), writing it with the persister's binary save and
reading the file back with the array loader reproduces exactly the
original shape and element values. -/
theorem c9_persister_roundtrip (datum : Datum)
    (h1 : datum.poseKeypoints.data.length = datum.poseKeypoints.shape.prod)
    (h2 : datum.handKeypoints.data.length = datum.handKeypoints.shape.prod) :
    npLoad (save_joints_positions datum).1 = some datum.poseKeypoints ∧
    npLoad (save_joints_positions datum).2 = some datum.handKeypoints :=
  ⟨npLoad_npSave _ h1, npLoad_npSave _ h2⟩

/-- C9 witness: a concrete `[1,2,3]`-shaped body array and a
`[2,1,2,3]`-shaped hand array round-trip through the persister. -/
theorem c9_witness :
    (NDArray.mk [1, 2, 3] [10, 20, 30, 40, 50, 60]).data.length
        = (NDArray.mk [1, 2, 3] [10, 20, 30, 40, 50, 60]).shape.prod ∧
    (NDArray.mk [2, 1, 2, 3] (List.range 12)).data.length
        = (NDArray.mk [2, 1, 2, 3] (List.range 12)).shape.prod ∧
    (npLoad (save_joints_positions ⟨⟨[1, 2, 3], [10, 20, 30, 40, 50, 60]⟩,
          ⟨[2, 1, 2, 3], List.range 12⟩⟩).1
        = some ⟨[1, 2, 3], [10, 20, 30, 40, 50, 60]⟩ ∧
      npLoad (save_joints_positions ⟨⟨[1, 2, 3], [10, 20, 30, 40, 50, 60]⟩,
          ⟨[2, 1, 2, 3], List.range 12⟩⟩).2
        = some ⟨[2, 1, 2, 3], List.range 12⟩) :=
  ⟨by decide, by decide, c9_persister_roundtrip _ (by decide) (by decide)⟩

/-- C10: `detect` with `is_return_joints=True` returns the hand array
unchanged, hand axis first (shape `[2, P, M, 3]`): the `np.swapaxes`
result — which would have shape `[P, 2, M, 3]` as the adjacent comment
claims — is discarded, so no reshape happens on the returned value. -/
theorem c10_hand_joints_keep_hand_axis_first (datum : Datum) (P M : Nat)
    (h : datum.handKeypoints.shape = [2, P, M, 3]) :
    (detect datum).2 = datum.handKeypoints ∧
    (detect datum).2.shape = [2, P, M, 3] ∧
    (swapaxes01 datum.handKeypoints).shape = [P, 2, M, 3] := by
  obtain ⟨pose, hand⟩ := datum
  obtain ⟨hs, hd⟩ := hand
  have h' : hs = [2, P, M, 3] := h
  subst h'
  exact ⟨rfl, rfl, rfl⟩

/-- C10 witness: a concrete hand array of shape `[2,1,2,3]` is returned
unchanged, while its swapped copy would have had shape `[1,2,2,3]`. -/
theorem c10_witness :
    (Datum.mk ⟨[1, 2, 3], []⟩ ⟨[2, 1, 2, 3], List.range 12⟩).handKeypoints.shape
        = [2, 1, 2, 3] ∧
    ((detect ⟨⟨[1, 2, 3], []⟩, ⟨[2, 1, 2, 3], List.range 12⟩⟩).2
        = ⟨[2, 1, 2, 3], List.range 12⟩ ∧
      (detect ⟨⟨[1, 2, 3], []⟩, ⟨[2, 1, 2, 3], List.range 12⟩⟩).2.shape = [2, 1, 2, 3] ∧
      (swapaxes01 ⟨[2, 1, 2, 3], List.range 12⟩).shape = [1, 2, 2, 3]) :=
  ⟨rfl, c10_hand_joints_keep_hand_axis_first ⟨⟨[1, 2, 3], []⟩, ⟨[2, 1, 2, 3], List.range 12⟩⟩ 1 2 rfl⟩
